import Mathlib

/-!
Verification of the fiap-mlops-datathon ETL core: value normalization
(`clean_empty_values`), record flattening (`process_applicant_record`,
`process_vaga_record`, `process_prospect_record`), the per-column type
optimizer (`optimize_dataframe_types`, in its two variants under
`features_pipeline` and `json_processing`), and the SQL layer
materializers (`process_sql_to_parquet`, `process_core_primary`).

Python values are embedded as the inductive `Value`; pandas / duckdb /
sklearn are external collaborators and are modelled at their interface.
Machine floats never carry program logic here: the only fractional-value
comparison in the source (`unique_ratio < 0.5`) is over a ratio of small
integer counts, embedded exactly in `ℚ`.
-/

namespace Datathon

/-- A JSON-like Python runtime value.  `null` is Python `None`; `nan` is a
float NaN (the two are distinguished by the source only through `pd.isna`,
which treats both as missing). -/
inductive Value where
  | null : Value
  | nan : Value
  | str : String → Value
  | int : Int → Value
  | bool : Bool → Value
  | list : List Value → Value
  | dict : List (String × Value) → Value

/-- Python exceptions that the embedded fragments can raise. -/
inductive PyError where
  | valueError : PyError
  | typeError : PyError
  | attributeError : PyError
deriving DecidableEq, Repr

/-- The whitespace characters removed by Python's `str.strip()`: the
Unicode White_Space set — `\t \n \x0b \x0c \r`, space, the ASCII
separators `\x1c`-`\x1f`, next line `\x85`, no-break space `\xa0`, and
the non-Latin Unicode space characters. -/
def isPySpace (c : Char) : Bool :=
  c = ' ' || c = '\t' || c = '\n' || c = '\r' || c = '\x0b' || c = '\x0c'
    || c = '\x1c' || c = '\x1d' || c = '\x1e' || c = '\x1f'
    || c = '\x85' || c = '\xa0' || c = '\u1680'
    || ('\u2000' ≤ c && c ≤ '\u200a')
    || c = '\u2028' || c = '\u2029' || c = '\u202f' || c = '\u205f'
    || c = '\u3000'

/-- Python `str.strip()` on the character list: drop leading and trailing
whitespace. -/
def pyStripList (l : List Char) : List Char :=
  ((l.dropWhile isPySpace).reverse.dropWhile isPySpace).reverse

/-- Python `str.strip()`. -/
def pyStrip (s : String) : String :=
  String.mk (pyStripList s.toList)

/-- The truth value of `pd.isna(value)` as truth-tested by the guard
`if value is None or pd.isna(value):` of `clean_empty_values`
(`features_pipeline/nodes.py` line 38).  On scalars (`None`, NaN,
strings, numbers, booleans — and dicts, which pandas treats as scalars)
`pd.isna` is the scalar missing-value test.  On a list, `pd.isna`
builds a NumPy boolean array over the nested structure, and
truth-testing that array raises `ValueError` ("the truth value of an
array with more than one element is ambiguous") unless the array has at
most one cell: an empty array is falsy, a one-cell array yields the
NA-test of its single leaf, so a singleton list defers to its element.
A list of two or more elements therefore raises — except the degenerate
rectangular all-empty nesting (e.g. `[[], []]`, a zero-cell array,
falsy), which this model conservatively also maps to the error; no
value of that shape occurs in this JSON data and no theorem below
exercises it. -/
def pdIsNaTruth : Value → Except PyError Bool
  | .null => .ok true
  | .nan => .ok true
  | .str _ => .ok false
  | .int _ => .ok false
  | .bool _ => .ok false
  | .dict _ => .ok false
  | .list [] => .ok false
  | .list [x] => pdIsNaTruth x
  | .list (_ :: _ :: _) => .error .valueError

/-- `features_pipeline/nodes.py` lines 28-47, `clean_empty_values`: the
guard `value is None or pd.isna(value)` truth-tests `pd.isna`, so the
function raises `ValueError` on a list of two or more elements and
returns `None` for `[None]` (truthy one-cell array); on a guard hit it
returns `None`; past the guard, a string whose stripped form is empty
becomes `None`, an empty list or dict becomes `None`, and everything
else is returned unchanged. -/
def clean_empty_values (value : Value) : Except PyError Value := do
  let isna ← pdIsNaTruth value
  if isna then
    return .null
  else
    match value with
    | .str s => return (if pyStrip s = "" then .null else .str s)
    | .list xs => return (if xs.length = 0 then .null else .list xs)
    | .dict kvs => return (if kvs.length = 0 then .null else .dict kvs)
    | v => return v

theorem except_bind_ok {ε α β : Type} (a : α) (f : α → Except ε β) :
    (Except.ok a : Except ε α) >>= f = f a := rfl

theorem except_bind_error {ε α β : Type} (e : ε) (f : α → Except ε β) :
    (Except.error e : Except ε α) >>= f = .error e := rfl

theorem except_pure {ε α : Type} (a : α) :
    (pure a : Except ε α) = .ok a := rfl

theorem clean_empty_values_str_eq (s : String) :
    clean_empty_values (.str s)
      = .ok (if pyStrip s = "" then .null else .str s) := rfl

theorem dropWhile_nil_iff (p : Char → Bool) (l : List Char) :
    l.dropWhile p = [] ↔ ∀ x ∈ l, p x = true := by
  induction l with
  | nil => simp
  | cons a l ih =>
    by_cases h : p a
    · simp [List.dropWhile, h, ih]
    · simp [List.dropWhile, h]

theorem pyStripList_eq_nil_iff (l : List Char) :
    pyStripList l = [] ↔ l.all isPySpace = true := by
  unfold pyStripList
  rw [List.reverse_eq_nil_iff, dropWhile_nil_iff]
  constructor
  · intro h
    rw [List.all_eq_true]
    intro x hx
    rcases List.mem_append.mp (by
        rw [List.takeWhile_append_dropWhile (p := isPySpace)]; exact hx :
        x ∈ l.takeWhile isPySpace ++ l.dropWhile isPySpace) with h1 | h2
    · exact List.mem_takeWhile_imp h1
    · exact h x (List.mem_reverse.mpr h2)
  · intro h x hx
    rw [List.all_eq_true] at h
    exact h x ((List.dropWhile_sublist (p := isPySpace) (l := l)).subset
      (List.mem_reverse.mp hx))

theorem pyStrip_eq_empty_iff (s : String) :
    pyStrip s = "" ↔ s.toList.all isPySpace = true := by
  unfold pyStrip
  rw [← pyStripList_eq_nil_iff]
  constructor
  · intro h
    have := congrArg String.toList h
    simpa using this
  · intro h
    rw [h]

/-- C7: for every string `s`, `clean_empty_values` returns the null marker
exactly when the stripped form of `s` is empty — equivalently, when every
character of `s` is Python whitespace (which covers the empty string) —
and otherwise returns the original string `s` unchanged (not trimmed);
strings never make the normalizer raise. -/
theorem C7_clean_empty_values_str (s : String) :
    (clean_empty_values (.str s) = .ok .null ↔ s.toList.all isPySpace = true)
    ∧ (s.toList.all isPySpace = false →
        clean_empty_values (.str s) = .ok (.str s)) := by
  rw [clean_empty_values_str_eq]
  constructor
  · rw [← pyStrip_eq_empty_iff]
    constructor
    · intro h
      by_contra hne
      simp [hne] at h
    · intro h
      simp [h]
  · intro h
    have hne : ¬ pyStrip s = "" := by
      rw [pyStrip_eq_empty_iff, h]
      simp
    simp [hne]

/-- Witness for C7 at concrete inputs: a string of space, tab and
no-break space collapses to the null marker, a non-blank string is
returned unchanged. -/
theorem C7_clean_empty_values_str_witness :
    clean_empty_values (.str " \t\u00a0") = .ok .null
    ∧ clean_empty_values (.str " a ") = .ok (.str " a ") :=
  ⟨(C7_clean_empty_values_str " \t\u00a0").1.mpr (by decide),
   (C7_clean_empty_values_str " a ").2 (by decide)⟩

/-- C8 counterexample: on a two-element list the normalizer does not
return at all — the `pd.isna` array truth-test raises `ValueError` — so
the idempotence equation fails on the claim's stated domain, which
includes lists. -/
theorem C8_counterexample_two_element_list :
    clean_empty_values (.list [.str "a", .str "b"]) = .error .valueError := rfl

/-- C8 (amended): the normalizer is idempotent on every input it
accepts: whenever `clean_empty_values x` returns a value `y` rather
than raising, `clean_empty_values y` returns `y` itself.  (On lists of
two or more elements it raises instead of returning, so those inputs
fall outside the idempotence equation; `[None]` normalizes to the null
marker, which is a fixed point.) -/
theorem C8_clean_empty_values_idempotent (x y : Value)
    (h : clean_empty_values x = .ok y) :
    clean_empty_values y = .ok y := by
  cases x with
  | null =>
    simp [clean_empty_values, pdIsNaTruth, except_bind_ok, except_bind_error, except_pure] at h
    subst h
    rfl
  | nan =>
    simp [clean_empty_values, pdIsNaTruth, except_bind_ok, except_bind_error, except_pure] at h
    subst h
    rfl
  | str s =>
    rw [clean_empty_values_str_eq] at h
    by_cases hp : pyStrip s = ""
    · simp [hp] at h
      subst h
      rfl
    · simp [hp] at h
      subst h
      simp [clean_empty_values_str_eq, hp]
  | int n =>
    simp [clean_empty_values, pdIsNaTruth, except_bind_ok, except_bind_error, except_pure] at h
    subst h
    rfl
  | bool b =>
    simp [clean_empty_values, pdIsNaTruth, except_bind_ok, except_bind_error, except_pure] at h
    subst h
    rfl
  | dict kvs =>
    by_cases hk : kvs.length = 0
    · simp [clean_empty_values, pdIsNaTruth, except_bind_ok, except_bind_error, except_pure, hk] at h
      subst h
      rfl
    · simp [clean_empty_values, pdIsNaTruth, except_bind_ok, except_bind_error, except_pure, hk] at h
      subst h
      simp [clean_empty_values, pdIsNaTruth, except_bind_ok, except_bind_error, except_pure, hk]
  | list xs =>
    rcases xs with _ | ⟨a, _ | ⟨b, rest⟩⟩
    · simp [clean_empty_values, pdIsNaTruth, except_bind_ok, except_bind_error, except_pure] at h
      subst h
      rfl
    · cases hia : pdIsNaTruth a with
      | ok bres =>
        cases bres
        · simp [clean_empty_values, pdIsNaTruth, except_bind_ok, except_bind_error, except_pure, hia] at h
          subst h
          simp [clean_empty_values, pdIsNaTruth, except_bind_ok, except_bind_error, except_pure, hia]
        · simp [clean_empty_values, pdIsNaTruth, except_bind_ok, except_bind_error, except_pure, hia] at h
          subst h
          rfl
      | error e =>
        simp [clean_empty_values, pdIsNaTruth, except_bind_ok, except_bind_error, except_pure, hia] at h
    · simp [clean_empty_values, pdIsNaTruth, except_bind_ok, except_bind_error, except_pure] at h

/-- Witness for C8 at a concrete accepted input: a blank string
normalizes to the null marker, and renormalizing that result is
stable. -/
theorem C8_clean_empty_values_idempotent_witness :
    clean_empty_values (.str "  ") = .ok .null
    ∧ clean_empty_values .null = .ok .null :=
  ⟨rfl, C8_clean_empty_values_idempotent (.str "  ") .null rfl⟩

/-! ### Type Optimizer (`optimize_dataframe_types`, two variants)

A textual (object-dtype) column is a `List (Option String)`: `none` is a
missing cell (NaN), cells are per-row values.  A numeric column is a
`List (Option Int)`.  The optimizer works column by column, so it is
embedded per column.  `unique_ratio < 0.5` compares a ratio of small
integer counts; it is embedded exactly over `ℚ`. -/

/-- The non-null cells of an object column (`notna`). -/
def nonNullCells (col : List (Option String)) : List String :=
  col.filterMap id

/-- pandas `Series.nunique`: the number of distinct non-null values. -/
def nuniqueStr (col : List (Option String)) : Nat :=
  (nonNullCells col).dedup.length

/-- `features_pipeline/nodes.py` lines 71-76: the object-column branch of
`optimize_dataframe_types`.  Returns `true` when the column is converted
to a categorical encoding: only when it has at least one non-null value
and `nunique / notna-count < 0.5`. -/
def optimize_object_column (col : List (Option String)) : Bool :=
  if 0 < (nonNullCells col).length then
    decide ((nuniqueStr col : ℚ) / ((nonNullCells col).length : ℚ) < 1/2)
  else false

/-- `json_processing/nodes.py` lines 47-50: the object-column branch of
the alternative `optimize_dataframe_types`.  The denominator is
`len(df)` — the total row count, nulls included — and there is no
non-null guard.  (On a zero-row frame the Python `/` would raise
`ZeroDivisionError`, but such a frame has no columns to visit; no
theorem below touches the empty column.) -/
def optimize_object_column_json (col : List (Option String)) : Bool :=
  decide ((nuniqueStr col : ℚ) / (col.length : ℚ) < 1/2)

/-- pandas column dtypes occurring in `optimize_dataframe_types`.
`int64nullable` is the pandas nullable-integer extension dtype `'Int64'`. -/
inductive PandasNumType where
  | int64 : PandasNumType
  | float64 : PandasNumType
  | int64nullable : PandasNumType
  | uint8 : PandasNumType
  | uint16 : PandasNumType
  | uint32 : PandasNumType
  | int8 : PandasNumType
  | int16 : PandasNumType
  | int32 : PandasNumType
deriving DecidableEq, Repr

/-- `col.min()` over a non-empty integer column `x :: xs`. -/
def colMin (x : Int) (xs : List Int) : Int := xs.foldl min x

/-- `col.max()` over a non-empty integer column `x :: xs`. -/
def colMax (x : Int) (xs : List Int) : Int := xs.foldl max x

/-- `features_pipeline/nodes.py` lines 88-103 = `json_processing/nodes.py`
lines 54-70: the no-null integer-narrowing decision on the column's
min and max.  The two source variants are textually identical here (the
features variant writes the signed tiers as `elif` arms of
`if col_min >= 0`, the json variant nests them under `else`; both test
the signed tiers exactly when `col_min < 0`).  When no arm matches the
column keeps its original `int64` dtype. -/
def chooseIntDtype (col_min col_max : Int) : PandasNumType :=
  if col_min ≥ 0 then
    if col_max < 255 then .uint8
    else if col_max < 65535 then .uint16
    else if col_max < 4294967295 then .uint32
    else .int64
  else if col_min > -128 ∧ col_max < 127 then .int8
  else if col_min > -32768 ∧ col_max < 32767 then .int16
  else if col_min > -2147483648 ∧ col_max < 2147483647 then .int32
  else .int64

/-- Integer narrowing of a non-empty no-null integer column. -/
def optimize_int_column (x : Int) (xs : List Int) : PandasNumType :=
  chooseIntDtype (colMin x xs) (colMax x xs)

/-- `features_pipeline/nodes.py` lines 79-103: the numeric branch of
`optimize_dataframe_types` on one column, returning the new dtype and
the cell values.  An `int64` column containing a null gets the nullable
`'Int64'` dtype; an `int64` column with no nulls is narrowed via the
min/max tiers; a `float64` column is left untouched.  `astype` to
`'Int64'`, or to a fixed width that (per the min/max guards) represents
every cell, preserves every cell value and every null exactly, so the
value list is unchanged on each path. -/
def optimize_numeric_column :
    PandasNumType → List (Option Int) → PandasNumType × List (Option Int)
  | .int64, col =>
    if col.any (fun c => c.isNone) then (.int64nullable, col)
    else
      match col.filterMap id with
      | [] => (.int64, col)
      | x :: xs => (optimize_int_column x xs, col)
  | t, col => (t, col)

/-- Dtypes that can represent a missing cell (pandas `'Int64'` keeps
`pd.NA`; `float64` keeps NaN). -/
def isNullableDtype : PandasNumType → Bool
  | .int64nullable => true
  | .float64 => true
  | _ => false

/-- Smallest value representable by a dtype (the 64-bit range for the
dtypes the optimizer never narrows to). -/
def dtypeLo : PandasNumType → Int
  | .uint8 => 0
  | .uint16 => 0
  | .uint32 => 0
  | .int8 => -128
  | .int16 => -32768
  | .int32 => -2147483648
  | _ => -9223372036854775808

/-- Largest value representable by a dtype. -/
def dtypeHi : PandasNumType → Int
  | .uint8 => 255
  | .uint16 => 65535
  | .uint32 => 4294967295
  | .int8 => 127
  | .int16 => 32767
  | .int32 => 2147483647
  | _ => 9223372036854775807

theorem colMin_le_forall (xs : List Int) :
    ∀ (x : Int), ∀ v ∈ x :: xs, colMin x xs ≤ v := by
  induction xs with
  | nil =>
    intro x v hv
    simp at hv
    simp [colMin, hv]
  | cons a l ih =>
    intro x v hv
    have hstep : colMin x (a :: l) = colMin (min x a) l := rfl
    have hhead : colMin (min x a) l ≤ min x a := ih (min x a) (min x a) (by simp)
    rcases List.mem_cons.mp hv with h | hv'
    · subst h
      exact le_trans (hstep ▸ hhead) (min_le_left _ _)
    · rcases List.mem_cons.mp hv' with h | h
      · subst h
        exact le_trans (hstep ▸ hhead) (min_le_right _ _)
      · exact hstep ▸ ih (min x a) v (by simp [h])

theorem colMin_le (x : Int) (xs : List Int) : ∀ v ∈ x :: xs, colMin x xs ≤ v :=
  colMin_le_forall xs x

theorem le_colMax_forall (xs : List Int) :
    ∀ (x : Int), ∀ v ∈ x :: xs, v ≤ colMax x xs := by
  induction xs with
  | nil =>
    intro x v hv
    simp at hv
    simp [colMax, hv]
  | cons a l ih =>
    intro x v hv
    have hstep : colMax x (a :: l) = colMax (max x a) l := rfl
    have hhead : max x a ≤ colMax (max x a) l := ih (max x a) (max x a) (by simp)
    rcases List.mem_cons.mp hv with h | hv'
    · subst h
      exact le_trans (le_max_left _ _) (hstep ▸ hhead)
    · rcases List.mem_cons.mp hv' with h | h
      · subst h
        exact le_trans (le_max_right _ _) (hstep ▸ hhead)
      · exact hstep ▸ ih (max x a) v (by simp [h])

theorem le_colMax (x : Int) (xs : List Int) : ∀ v ∈ x :: xs, v ≤ colMax x xs :=
  le_colMax_forall xs x

theorem chooseIntDtype_unsigned (m M : Int) (h0 : 0 ≤ m) :
    (chooseIntDtype m M = .uint8 ↔ M < 255)
    ∧ (chooseIntDtype m M = .uint16 ↔ 255 ≤ M ∧ M < 65535)
    ∧ (chooseIntDtype m M = .uint32 ↔ 65535 ≤ M ∧ M < 4294967295)
    ∧ (chooseIntDtype m M = .int64 ↔ 4294967295 ≤ M) := by
  unfold chooseIntDtype
  split_ifs <;> simp_all <;> omega

theorem chooseIntDtype_signed (m M : Int) (h0 : m < 0) :
    (chooseIntDtype m M = .int8 ↔ -128 < m ∧ M < 127)
    ∧ (chooseIntDtype m M = .int16 ↔
        (-32768 < m ∧ M < 32767) ∧ ¬(-128 < m ∧ M < 127))
    ∧ (chooseIntDtype m M = .int32 ↔
        (-2147483648 < m ∧ M < 2147483647) ∧ ¬(-32768 < m ∧ M < 32767))
    ∧ (chooseIntDtype m M = .int64 ↔ ¬(-2147483648 < m ∧ M < 2147483647)) := by
  unfold chooseIntDtype
  split_ifs <;> simp_all <;> omega

theorem chooseIntDtype_sound (m M v : Int) (hmv : m ≤ v) (hvM : v ≤ M)
    (hlo : -9223372036854775808 ≤ m) (hhi : M ≤ 9223372036854775807) :
    dtypeLo (chooseIntDtype m M) ≤ v ∧ v ≤ dtypeHi (chooseIntDtype m M) := by
  unfold chooseIntDtype
  split_ifs <;> simp [dtypeLo, dtypeHi] <;> omega

theorem colMin_mem_forall (xs : List Int) : ∀ x, colMin x xs ∈ x :: xs := by
  induction xs with
  | nil =>
    intro x
    simp [colMin]
  | cons a l ih =>
    intro x
    have hstep : colMin x (a :: l) = colMin (min x a) l := rfl
    rcases List.mem_cons.mp (ih (min x a)) with h | h
    · rw [hstep, h]
      rcases min_choice x a with hc | hc <;> rw [hc] <;> simp
    · rw [hstep]
      simp [h]

theorem colMax_mem_forall (xs : List Int) : ∀ x, colMax x xs ∈ x :: xs := by
  induction xs with
  | nil =>
    intro x
    simp [colMax]
  | cons a l ih =>
    intro x
    have hstep : colMax x (a :: l) = colMax (max x a) l := rfl
    rcases List.mem_cons.mp (ih (max x a)) with h | h
    · rw [hstep, h]
      rcases max_choice x a with hc | hc <;> rw [hc] <;> simp
    · rw [hstep]
      simp [h]

/-- C2 (amended): the `features_pipeline` optimizer marks a textual column
categorical exactly when it has at least one non-null value and
(distinct non-null count)/(non-null count) < 0.5; the `json_processing`
variant instead marks it categorical exactly when
(distinct non-null count)/(total row count, nulls included) < 0.5,
with no non-null guard. -/
theorem C2_object_column_categorical_rule (col : List (Option String)) :
    (optimize_object_column col = true ↔
      0 < (nonNullCells col).length
      ∧ (nuniqueStr col : ℚ) / ((nonNullCells col).length : ℚ) < 1/2)
    ∧ (optimize_object_column_json col = true ↔
      (nuniqueStr col : ℚ) / (col.length : ℚ) < 1/2) := by
  constructor
  · unfold optimize_object_column
    split_ifs with h
    · simp [h]
    · simp [h]
  · unfold optimize_object_column_json
    simp

/-- C2 counterexample: on the one-cell all-null textual column, the
`json_processing` optimizer marks the column categorical even though the
column has zero non-null values — the claim requires such a column to be
left untouched (and its ratio condition cannot hold with no non-null
values). -/
theorem C2_counterexample_json_all_null :
    optimize_object_column_json [none] = true
    ∧ ¬(0 < (nonNullCells [(none : Option String)]).length
        ∧ (nuniqueStr [(none : Option String)] : ℚ)
            / ((nonNullCells [(none : Option String)]).length : ℚ) < 1/2) := by
  constructor
  · unfold optimize_object_column_json
    rw [decide_eq_true_iff]
    norm_num [nuniqueStr, nonNullCells]
  · intro h
    have h1 := h.1
    norm_num [nonNullCells] at h1

/-- C3: for a non-empty no-null integer column (whose values fit the
original 64-bit representation), the narrowing decision follows exactly
the claimed tier table — unsigned 8/16/32-bit tiers with open upper
bounds 255/65535/4294967295 when the minimum is non-negative, signed
8/16/32-bit tiers with open bounds when the minimum is negative,
boundary values escalating, and the original representation kept beyond
the last tier — and the chosen dtype represents every value of the
column. -/
theorem C3_optimize_int_column_tiers (x : Int) (xs : List Int)
    (hvals : ∀ v ∈ x :: xs,
      -9223372036854775808 ≤ v ∧ v ≤ 9223372036854775807) :
    (0 ≤ colMin x xs →
      ((optimize_int_column x xs = .uint8 ↔ colMax x xs < 255)
       ∧ (optimize_int_column x xs = .uint16 ↔
            255 ≤ colMax x xs ∧ colMax x xs < 65535)
       ∧ (optimize_int_column x xs = .uint32 ↔
            65535 ≤ colMax x xs ∧ colMax x xs < 4294967295)
       ∧ (optimize_int_column x xs = .int64 ↔ 4294967295 ≤ colMax x xs)))
    ∧ (colMin x xs < 0 →
      ((optimize_int_column x xs = .int8 ↔
            -128 < colMin x xs ∧ colMax x xs < 127)
       ∧ (optimize_int_column x xs = .int16 ↔
            (-32768 < colMin x xs ∧ colMax x xs < 32767)
            ∧ ¬(-128 < colMin x xs ∧ colMax x xs < 127))
       ∧ (optimize_int_column x xs = .int32 ↔
            (-2147483648 < colMin x xs ∧ colMax x xs < 2147483647)
            ∧ ¬(-32768 < colMin x xs ∧ colMax x xs < 32767))
       ∧ (optimize_int_column x xs = .int64 ↔
            ¬(-2147483648 < colMin x xs ∧ colMax x xs < 2147483647))))
    ∧ (∀ v ∈ x :: xs,
        dtypeLo (optimize_int_column x xs) ≤ v
        ∧ v ≤ dtypeHi (optimize_int_column x xs)) := by
  refine ⟨fun h0 => chooseIntDtype_unsigned _ _ h0,
          fun h0 => chooseIntDtype_signed _ _ h0,
          fun v hv => ?_⟩
  have hlo := (hvals (colMin x xs) (colMin_mem_forall xs x)).1
  have hhi := (hvals (colMax x xs) (colMax_mem_forall xs x)).2
  exact chooseIntDtype_sound (colMin x xs) (colMax x xs) v
    (colMin_le x xs v hv) (le_colMax x xs v hv) hlo hhi

/-- Witness for C3 at the spec's example column `[0, 10, 200]`: the
maximum 200 is below 255 and the minimum is non-negative, so the column
is narrowed to unsigned 8-bit. -/
theorem C3_optimize_int_column_tiers_witness :
    optimize_int_column 0 [10, 200] = .uint8 :=
  (((C3_optimize_int_column_tiers 0 [10, 200] (by decide)).1 (by decide)).1).mpr
    (by decide)

/-- C4: on any numeric (`int64` or `float64`) column containing a null,
the optimizer assigns a dtype that represents the null marker — the
nullable `'Int64'` extension dtype or the original `float64` — never a
narrow non-nullable width, and leaves every cell, nulls included,
unchanged. -/
theorem C4_optimize_numeric_column_nullable (t : PandasNumType)
    (col : List (Option Int)) (ht : t = .int64 ∨ t = .float64)
    (hnull : col.any (fun c => c.isNone) = true) :
    isNullableDtype (optimize_numeric_column t col).1 = true
    ∧ (optimize_numeric_column t col).2 = col := by
  rcases ht with h | h <;> subst h
  · simp [optimize_numeric_column, hnull, isNullableDtype]
  · simp [optimize_numeric_column, isNullableDtype]

/-- Witness for C4 at the spec's example column `[0, 10, 200]` with one
null injected: the result is the nullable `'Int64'` dtype with the cells
(including the null) unchanged, not an 8-bit unsigned width. -/
theorem C4_optimize_numeric_column_nullable_witness :
    isNullableDtype
      (optimize_numeric_column .int64 [some 0, some 10, some 200, none]).1 = true
    ∧ (optimize_numeric_column .int64 [some 0, some 10, some 200, none]).2
        = [some 0, some 10, some 200, none] :=
  C4_optimize_numeric_column_nullable .int64 [some 0, some 10, some 200, none]
    (Or.inl rfl) (by decide)

/-! ### Record Flattener -/

/-- Python `d.get(k)`: the stored value, or `None` when the key is
absent. -/
def dictGet (kvs : List (String × Value)) (k : String) : Value :=
  match kvs.lookup k with
  | some v => v
  | none => .null

/-- Python `d.get(k, {})` as used for the nested sub-objects, combined
with the subsequent attribute accesses on the result: yields the
sub-dictionary's entries, `[]` when the key is absent, and
`AttributeError` (raised by the first `.get` on the non-mapping) when the
stored value is not a mapping. -/
def getSubDict (kvs : List (String × Value)) (k : String) :
    Except PyError (List (String × Value)) :=
  match kvs.lookup k with
  | none => .ok []
  | some (.dict d) => .ok d
  | some _ => .error .attributeError

/-- Whether the normalizer returns (does not raise) on `v`. -/
def cleanReturns (v : Value) : Bool :=
  (clean_empty_values v).toOption.isSome

/-- The value the normalizer returns on an input it accepts. -/
def cleanTotal (v : Value) : Value :=
  ((clean_empty_values v).toOption).getD .null

theorem clean_eq_ok_cleanTotal (v : Value) (h : cleanReturns v = true) :
    clean_empty_values v = .ok (cleanTotal v) := by
  unfold cleanReturns at h
  unfold cleanTotal
  cases hc : clean_empty_values v with
  | ok w => simp [Except.toOption]
  | error e =>
    rw [hc] at h
    simp [Except.toOption] at h

theorem mem_of_lookup_eq_some :
    ∀ {d : List (String × Value)} {k : String} {v : Value},
      d.lookup k = some v → (k, v) ∈ d := by
  intro d
  induction d with
  | nil =>
    intro k v h
    simp [List.lookup] at h
  | cons p t ih =>
    intro k v h
    obtain ⟨k2, v2⟩ := p
    rw [List.lookup] at h
    by_cases hk : (k == k2) = true
    · rw [hk] at h
      simp at h hk
      subst h
      subst hk
      simp
    · rw [Bool.not_eq_true] at hk
      rw [hk] at h
      exact List.mem_cons_of_mem _ (ih h)

theorem cleanLeaf_ok (d : List (String × Value))
    (h : d.all (fun kv => cleanReturns kv.2) = true) (k : String) :
    clean_empty_values (dictGet d k) = .ok (cleanTotal (dictGet d k)) := by
  apply clean_eq_ok_cleanTotal
  unfold dictGet
  cases hlk : d.lookup k with
  | none => rfl
  | some v =>
    have hmem := mem_of_lookup_eq_some hlk
    rw [List.all_eq_true] at h
    exact h (k, v) hmem

theorem cleanTotal_dictGet_none (d : List (String × Value)) (k : String)
    (h : d.lookup k = none) : cleanTotal (dictGet d k) = Value.null := by
  unfold dictGet
  rw [h]
  rfl

/-- The record `process_applicant_record` produces on its success path
(`features_pipeline/nodes.py` lines 125-166), as a function of the four
extracted sub-objects and the top level; each leaf holds the value the
normalizer returns on it. -/
def applicantRecordOf (app_id : String)
    (basic_info personal_info professional_info education_info
      app_data : List (String × Value)) : List (String × Value) := [
    ("id", .str app_id),
    ("nome", cleanTotal (dictGet basic_info "nome")),
    ("email", cleanTotal (dictGet basic_info "email")),
    ("telefone", cleanTotal (dictGet basic_info "telefone")),
    ("telefone_recado", cleanTotal (dictGet basic_info "telefone_recado")),
    ("data_criacao", cleanTotal (dictGet basic_info "data_criacao")),
    ("data_atualizacao", cleanTotal (dictGet basic_info "data_atualizacao")),
    ("inserido_por", cleanTotal (dictGet basic_info "inserido_por")),
    ("codigo_profissional", cleanTotal (dictGet basic_info "codigo_profissional")),
    ("objetivo_profissional", cleanTotal (dictGet basic_info "objetivo_profissional")),
    ("cpf", cleanTotal (dictGet personal_info "cpf")),
    ("data_nascimento", cleanTotal (dictGet personal_info "data_nascimento")),
    ("sexo", cleanTotal (dictGet personal_info "sexo")),
    ("estado_civil", cleanTotal (dictGet personal_info "estado_civil")),
    ("pcd", cleanTotal (dictGet personal_info "pcd")),
    ("endereco", cleanTotal (dictGet personal_info "endereco")),
    ("linkedin", cleanTotal (dictGet personal_info "url_linkedin")),
    ("facebook", cleanTotal (dictGet personal_info "facebook")),
    ("skype", cleanTotal (dictGet personal_info "skype")),
    ("titulo_profissional", cleanTotal (dictGet professional_info "titulo_profissional")),
    ("area_atuacao", cleanTotal (dictGet professional_info "area_atuacao")),
    ("conhecimentos_tecnicos", cleanTotal (dictGet professional_info "conhecimentos_tecnicos")),
    ("certificacoes", cleanTotal (dictGet professional_info "certificacoes")),
    ("remuneracao", cleanTotal (dictGet professional_info "remuneracao")),
    ("nivel_profissional", cleanTotal (dictGet professional_info "nivel_profissional")),
    ("nivel_academico", cleanTotal (dictGet education_info "nivel_academico")),
    ("nivel_ingles", cleanTotal (dictGet education_info "nivel_ingles")),
    ("nivel_espanhol", cleanTotal (dictGet education_info "nivel_espanhol")),
    ("outro_idioma", cleanTotal (dictGet education_info "outro_idioma")),
    ("cv_pt", cleanTotal (dictGet app_data "cv_pt")),
    ("cv_en", cleanTotal (dictGet app_data "cv_en"))]

/-- `features_pipeline/nodes.py` lines 109-168, `process_applicant_record`:
reads the four nested sub-objects (defaulting each to an empty mapping
when absent), extracts the fixed leaf fields in record order, and
normalizes each leaf with `clean_empty_values` — which can raise, so the
whole call raises on the first unacceptable leaf, exactly as the Python
record literal evaluates its values left to right. -/
def process_applicant_record (app_id : String)
    (app_data : List (String × Value)) :
    Except PyError (List (String × Value)) := do
  let basic_info ← getSubDict app_data "infos_basicas"
  let personal_info ← getSubDict app_data "informacoes_pessoais"
  let professional_info ← getSubDict app_data "informacoes_profissionais"
  let education_info ← getSubDict app_data "formacao_e_idiomas"
  let v_nome ← clean_empty_values (dictGet basic_info "nome")
  let v_email ← clean_empty_values (dictGet basic_info "email")
  let v_telefone ← clean_empty_values (dictGet basic_info "telefone")
  let v_telefone_recado ← clean_empty_values (dictGet basic_info "telefone_recado")
  let v_data_criacao ← clean_empty_values (dictGet basic_info "data_criacao")
  let v_data_atualizacao ← clean_empty_values (dictGet basic_info "data_atualizacao")
  let v_inserido_por ← clean_empty_values (dictGet basic_info "inserido_por")
  let v_codigo_profissional ← clean_empty_values (dictGet basic_info "codigo_profissional")
  let v_objetivo_profissional ← clean_empty_values (dictGet basic_info "objetivo_profissional")
  let v_cpf ← clean_empty_values (dictGet personal_info "cpf")
  let v_data_nascimento ← clean_empty_values (dictGet personal_info "data_nascimento")
  let v_sexo ← clean_empty_values (dictGet personal_info "sexo")
  let v_estado_civil ← clean_empty_values (dictGet personal_info "estado_civil")
  let v_pcd ← clean_empty_values (dictGet personal_info "pcd")
  let v_endereco ← clean_empty_values (dictGet personal_info "endereco")
  let v_linkedin ← clean_empty_values (dictGet personal_info "url_linkedin")
  let v_facebook ← clean_empty_values (dictGet personal_info "facebook")
  let v_skype ← clean_empty_values (dictGet personal_info "skype")
  let v_titulo_profissional ← clean_empty_values (dictGet professional_info "titulo_profissional")
  let v_area_atuacao ← clean_empty_values (dictGet professional_info "area_atuacao")
  let v_conhecimentos_tecnicos ← clean_empty_values (dictGet professional_info "conhecimentos_tecnicos")
  let v_certificacoes ← clean_empty_values (dictGet professional_info "certificacoes")
  let v_remuneracao ← clean_empty_values (dictGet professional_info "remuneracao")
  let v_nivel_profissional ← clean_empty_values (dictGet professional_info "nivel_profissional")
  let v_nivel_academico ← clean_empty_values (dictGet education_info "nivel_academico")
  let v_nivel_ingles ← clean_empty_values (dictGet education_info "nivel_ingles")
  let v_nivel_espanhol ← clean_empty_values (dictGet education_info "nivel_espanhol")
  let v_outro_idioma ← clean_empty_values (dictGet education_info "outro_idioma")
  let v_cv_pt ← clean_empty_values (dictGet app_data "cv_pt")
  let v_cv_en ← clean_empty_values (dictGet app_data "cv_en")
  return [
    ("id", .str app_id),
    ("nome", v_nome),
    ("email", v_email),
    ("telefone", v_telefone),
    ("telefone_recado", v_telefone_recado),
    ("data_criacao", v_data_criacao),
    ("data_atualizacao", v_data_atualizacao),
    ("inserido_por", v_inserido_por),
    ("codigo_profissional", v_codigo_profissional),
    ("objetivo_profissional", v_objetivo_profissional),
    ("cpf", v_cpf),
    ("data_nascimento", v_data_nascimento),
    ("sexo", v_sexo),
    ("estado_civil", v_estado_civil),
    ("pcd", v_pcd),
    ("endereco", v_endereco),
    ("linkedin", v_linkedin),
    ("facebook", v_facebook),
    ("skype", v_skype),
    ("titulo_profissional", v_titulo_profissional),
    ("area_atuacao", v_area_atuacao),
    ("conhecimentos_tecnicos", v_conhecimentos_tecnicos),
    ("certificacoes", v_certificacoes),
    ("remuneracao", v_remuneracao),
    ("nivel_profissional", v_nivel_profissional),
    ("nivel_academico", v_nivel_academico),
    ("nivel_ingles", v_nivel_ingles),
    ("nivel_espanhol", v_nivel_espanhol),
    ("outro_idioma", v_outro_idioma),
    ("cv_pt", v_cv_pt),
    ("cv_en", v_cv_en)]

/-- The 31 output field names of an applicant record, in record order. -/
def applicantFields : List String :=
  ["id", "nome", "email", "telefone", "telefone_recado", "data_criacao",
   "data_atualizacao", "inserido_por", "codigo_profissional",
   "objetivo_profissional", "cpf", "data_nascimento", "sexo",
   "estado_civil", "pcd", "endereco", "linkedin", "facebook", "skype",
   "titulo_profissional", "area_atuacao", "conhecimentos_tecnicos",
   "certificacoes", "remuneracao", "nivel_profissional",
   "nivel_academico", "nivel_ingles", "nivel_espanhol", "outro_idioma",
   "cv_pt", "cv_en"]

/-- (output field, enclosing sub-object key, source leaf key) for each of
the 28 applicant leaves read from one of the four sub-objects (the two
CV fields are read from the top level and handled separately). -/
def applicantLeafPaths : List (String × String × String) :=
  [("nome", "infos_basicas", "nome"),
   ("email", "infos_basicas", "email"),
   ("telefone", "infos_basicas", "telefone"),
   ("telefone_recado", "infos_basicas", "telefone_recado"),
   ("data_criacao", "infos_basicas", "data_criacao"),
   ("data_atualizacao", "infos_basicas", "data_atualizacao"),
   ("inserido_por", "infos_basicas", "inserido_por"),
   ("codigo_profissional", "infos_basicas", "codigo_profissional"),
   ("objetivo_profissional", "infos_basicas", "objetivo_profissional"),
   ("cpf", "informacoes_pessoais", "cpf"),
   ("data_nascimento", "informacoes_pessoais", "data_nascimento"),
   ("sexo", "informacoes_pessoais", "sexo"),
   ("estado_civil", "informacoes_pessoais", "estado_civil"),
   ("pcd", "informacoes_pessoais", "pcd"),
   ("endereco", "informacoes_pessoais", "endereco"),
   ("linkedin", "informacoes_pessoais", "url_linkedin"),
   ("facebook", "informacoes_pessoais", "facebook"),
   ("skype", "informacoes_pessoais", "skype"),
   ("titulo_profissional", "informacoes_profissionais", "titulo_profissional"),
   ("area_atuacao", "informacoes_profissionais", "area_atuacao"),
   ("conhecimentos_tecnicos", "informacoes_profissionais", "conhecimentos_tecnicos"),
   ("certificacoes", "informacoes_profissionais", "certificacoes"),
   ("remuneracao", "informacoes_profissionais", "remuneracao"),
   ("nivel_profissional", "informacoes_profissionais", "nivel_profissional"),
   ("nivel_academico", "formacao_e_idiomas", "nivel_academico"),
   ("nivel_ingles", "formacao_e_idiomas", "nivel_ingles"),
   ("nivel_espanhol", "formacao_e_idiomas", "nivel_espanhol"),
   ("outro_idioma", "formacao_e_idiomas", "outro_idioma")]

/-- The four sub-objects of an applicant record by their source key
(anything else defaults to the education sub-object; only the four keys
of `applicantLeafPaths` are ever consulted). -/
def applicantSubFor (basic personal professional education : List (String × Value))
    (sk : String) : List (String × Value) :=
  if sk = "infos_basicas" then basic
  else if sk = "informacoes_pessoais" then personal
  else if sk = "informacoes_profissionais" then professional
  else education

/-- `features_pipeline/nodes.py` lines 171-237, `process_vaga_record`:
analogous flattener for a job record.  The input may be any value: a
non-mapping raises `AttributeError` at the first `.get`, a leaf the
normalizer rejects raises `ValueError` there.  The function's
`try/except` logs and re-raises, so the same error propagates to the
caller. -/
def process_vaga_record (vaga_id : String) (vaga_data : Value) :
    Except PyError (List (String × Value)) := do
  match vaga_data with
  | .dict kvs =>
    let basic_info ← getSubDict kvs "informacoes_basicas"
    let profile_info ← getSubDict kvs "perfil_vaga"
    let benefits_info ← getSubDict kvs "beneficios"
    let v_titulo_vaga ← clean_empty_values (dictGet basic_info "titulo_vaga")
    let v_cliente ← clean_empty_values (dictGet basic_info "cliente")
    let v_solicitante_cliente ← clean_empty_values (dictGet basic_info "solicitante_cliente")
    let v_empresa_divisao ← clean_empty_values (dictGet basic_info "empresa_divisao")
    let v_requisitante ← clean_empty_values (dictGet basic_info "requisitante")
    let v_analista_responsavel ← clean_empty_values (dictGet basic_info "analista_responsavel")
    let v_tipo_contratacao ← clean_empty_values (dictGet basic_info "tipo_contratacao")
    let v_data_requicisao ← clean_empty_values (dictGet basic_info "data_requicisao")
    let v_limite_contratacao ← clean_empty_values (dictGet basic_info "limite_esperado_para_contratacao")
    let v_vaga_sap ← clean_empty_values (dictGet basic_info "vaga_sap")
    let v_prazo_contratacao ← clean_empty_values (dictGet basic_info "prazo_contratacao")
    let v_objetivo_vaga ← clean_empty_values (dictGet basic_info "objetivo_vaga")
    let v_prioridade_vaga ← clean_empty_values (dictGet basic_info "prioridade_vaga")
    let v_origem_vaga ← clean_empty_values (dictGet basic_info "origem_vaga")
    let v_pais ← clean_empty_values (dictGet profile_info "pais")
    let v_estado ← clean_empty_values (dictGet profile_info "estado")
    let v_cidade ← clean_empty_values (dictGet profile_info "cidade")
    let v_bairro ← clean_empty_values (dictGet profile_info "bairro")
    let v_local_trabalho ← clean_empty_values (dictGet profile_info "local_trabalho")
    let v_vaga_pcd ← clean_empty_values (dictGet profile_info "vaga_especifica_para_pcd")
    let v_faixa_etaria ← clean_empty_values (dictGet profile_info "faixa_etaria")
    let v_horario_trabalho ← clean_empty_values (dictGet profile_info "horario_trabalho")
    let v_nivel_profissional ← clean_empty_values (dictGet profile_info "nivel profissional")
    let v_nivel_academico ← clean_empty_values (dictGet profile_info "nivel_academico")
    let v_nivel_ingles ← clean_empty_values (dictGet profile_info "nivel_ingles")
    let v_nivel_espanhol ← clean_empty_values (dictGet profile_info "nivel_espanhol")
    let v_outro_idioma ← clean_empty_values (dictGet profile_info "outro_idioma")
    let v_areas_atuacao ← clean_empty_values (dictGet profile_info "areas_atuacao")
    let v_principais_atividades ← clean_empty_values (dictGet profile_info "principais_atividades")
    let v_competencias ← clean_empty_values (dictGet profile_info "competencia_tecnicas_e_comportamentais")
    let v_observacoes ← clean_empty_values (dictGet profile_info "demais_observacoes")
    let v_viagens_requeridas ← clean_empty_values (dictGet profile_info "viagens_requeridas")
    let v_equipamentos_necessarios ← clean_empty_values (dictGet profile_info "equipamentos_necessarios")
    let v_valor_venda ← clean_empty_values (dictGet benefits_info "valor_venda")
    let v_valor_compra_1 ← clean_empty_values (dictGet benefits_info "valor_compra_1")
    let v_valor_compra_2 ← clean_empty_values (dictGet benefits_info "valor_compra_2")
    return [
      ("id", .str vaga_id),
      ("titulo_vaga", v_titulo_vaga),
      ("cliente", v_cliente),
      ("solicitante_cliente", v_solicitante_cliente),
      ("empresa_divisao", v_empresa_divisao),
      ("requisitante", v_requisitante),
      ("analista_responsavel", v_analista_responsavel),
      ("tipo_contratacao", v_tipo_contratacao),
      ("data_requicisao", v_data_requicisao),
      ("limite_contratacao", v_limite_contratacao),
      ("vaga_sap", v_vaga_sap),
      ("prazo_contratacao", v_prazo_contratacao),
      ("objetivo_vaga", v_objetivo_vaga),
      ("prioridade_vaga", v_prioridade_vaga),
      ("origem_vaga", v_origem_vaga),
      ("pais", v_pais),
      ("estado", v_estado),
      ("cidade", v_cidade),
      ("bairro", v_bairro),
      ("local_trabalho", v_local_trabalho),
      ("vaga_pcd", v_vaga_pcd),
      ("faixa_etaria", v_faixa_etaria),
      ("horario_trabalho", v_horario_trabalho),
      ("nivel_profissional", v_nivel_profissional),
      ("nivel_academico", v_nivel_academico),
      ("nivel_ingles", v_nivel_ingles),
      ("nivel_espanhol", v_nivel_espanhol),
      ("outro_idioma", v_outro_idioma),
      ("areas_atuacao", v_areas_atuacao),
      ("principais_atividades", v_principais_atividades),
      ("competencias", v_competencias),
      ("observacoes", v_observacoes),
      ("viagens_requeridas", v_viagens_requeridas),
      ("equipamentos_necessarios", v_equipamentos_necessarios),
      ("valor_venda", v_valor_venda),
      ("valor_compra_1", v_valor_compra_1),
      ("valor_compra_2", v_valor_compra_2)]
  | _ => .error .attributeError

/-- `features_pipeline/nodes.py` lines 256-268: the per-event record of
the prospect loop body.  A non-mapping event element raises
`AttributeError` at `prospect.get`; a leaf the normalizer rejects
raises `ValueError` there. -/
def process_prospect_elem (prospect_id : String) (titulo modalidade : Value) :
    Value → Except PyError (List (String × Value))
  | .dict d => do
    let v_nome ← clean_empty_values (dictGet d "nome")
    let v_codigo ← clean_empty_values (dictGet d "codigo")
    let v_situacao_candidado ← clean_empty_values (dictGet d "situacao_candidado")
    let v_data_candidatura ← clean_empty_values (dictGet d "data_candidatura")
    let v_ultima_atualizacao ← clean_empty_values (dictGet d "ultima_atualizacao")
    let v_comentario ← clean_empty_values (dictGet d "comentario")
    let v_recrutador ← clean_empty_values (dictGet d "recrutador")
    return [
      ("prospect_id", .str prospect_id),
      ("titulo", titulo),
      ("modalidade", modalidade),
      ("nome", v_nome),
      ("codigo", v_codigo),
      ("situacao_candidado", v_situacao_candidado),
      ("data_candidatura", v_data_candidatura),
      ("ultima_atualizacao", v_ultima_atualizacao),
      ("comentario", v_comentario),
      ("recrutador", v_recrutador)]
  | _ => .error .attributeError

/-- `prospect_data.get('prospects', [])` followed by iteration: `[]` when
the key is absent, the elements when a list is stored; for any other
stored value the loop raises (`TypeError` at `for` for non-iterables;
iterable non-lists yield non-mapping elements whose `.get` raises —
modelled as an error uniformly, since the realistic JSON payloads here
are lists, mappings, numbers and non-empty strings). -/
def getProspects (kvs : List (String × Value)) : Except PyError (List Value) :=
  match kvs.lookup "prospects" with
  | none => .ok []
  | some (.list xs) => .ok xs
  | some _ => .error .typeError

/-- `features_pipeline/nodes.py` lines 240-271, `process_prospect_record`:
normalizes the shared `titulo`/`modalidade` (raising if the normalizer
rejects either), then emits one record per element of the embedded
`prospects` list, replicating the group id and the two shared fields
onto each.  A non-mapping input raises at the first `.get`. -/
def process_prospect_record (prospect_id : String) (prospect_data : Value) :
    Except PyError (List (List (String × Value))) := do
  match prospect_data with
  | .dict kvs =>
    let titulo ← clean_empty_values (dictGet kvs "titulo")
    let modalidade ← clean_empty_values (dictGet kvs "modalidade")
    let prospects ← getProspects kvs
    prospects.mapM (process_prospect_elem prospect_id titulo modalidade)
  | _ => .error .attributeError

/-- `features_pipeline/nodes.py` lines 302-310: the job loop of
`process_all_json_data`.  Per entry it calls `process_vaga_record`; on
success the record is appended, on any exception the error is logged
with the offending id and the loop continues.  Returns the record list
and the list of logged (failed) ids. -/
def process_vagas_batch (raw_vagas : List (String × Value)) :
    List (List (String × Value)) × List String :=
  raw_vagas.foldl (fun acc p =>
    match process_vaga_record p.1 p.2 with
    | .ok r => (acc.1 ++ [r], acc.2)
    | .error _ => (acc.1, acc.2 ++ [p.1])) ([], [])

/-- `features_pipeline/nodes.py` lines 312-320: the prospect loop of
`process_all_json_data`, with the same log-and-skip policy; a successful
group contributes all of its per-event records (`extend`). -/
def process_prospects_batch (raw_prospects : List (String × Value)) :
    List (List (String × Value)) × List String :=
  raw_prospects.foldl (fun acc p =>
    match process_prospect_record p.1 p.2 with
    | .ok rs => (acc.1 ++ rs, acc.2)
    | .error _ => (acc.1, acc.2 ++ [p.1])) ([], [])

/-- The length of the embedded `prospects` list of a raw prospect group:
the claim's `k` (0 when the list is absent). -/
def embeddedLen (v : Value) : Nat :=
  match v with
  | .dict kvs =>
    match kvs.lookup "prospects" with
    | some (.list xs) => xs.length
    | _ => 0
  | _ => 0

/-- A raw prospect group in the shape the claim quantifies over: a
mapping whose `prospects` entry, when present, is a list of mappings. -/
def wellFormedGroup (v : Value) : Bool :=
  match v with
  | .dict kvs =>
    match kvs.lookup "prospects" with
    | none => true
    | some (.list xs) =>
      xs.all fun x => match x with | .dict _ => true | _ => false
    | some _ => false
  | _ => false

/-- An event element the per-event flattener accepts without raising: a
mapping all of whose stored values the normalizer returns on. -/
def elemCleanable : Value → Bool
  | .dict d => d.all (fun kv => cleanReturns kv.2)
  | _ => false

/-- The acceptance condition the normalizer imposes on a whole group:
the shared `titulo`/`modalidade` values and every embedded event must be
ones the flattening pass returns on. -/
def cleanableGroup : Value → Bool
  | .dict kvs =>
    cleanReturns (dictGet kvs "titulo")
      && (cleanReturns (dictGet kvs "modalidade")
      && (match kvs.lookup "prospects" with
          | some (.list xs) => xs.all elemCleanable
          | _ => true))
  | _ => false

/-- The entries of a mapping value (`[]` for non-mappings; only applied
to mappings below). -/
def asDictEntries : Value → List (String × Value)
  | .dict kvs => kvs
  | _ => []

theorem prospect_elems_ok (pid : String) (t mo : Value) (xs : List Value)
    (h : ∀ x ∈ xs, elemCleanable x = true) :
    ∃ rs, xs.mapM (process_prospect_elem pid t mo) = .ok rs
      ∧ rs.length = xs.length
      ∧ ∀ r ∈ rs, r.lookup "prospect_id" = some (Value.str pid)
          ∧ r.lookup "titulo" = some t
          ∧ r.lookup "modalidade" = some mo := by
  induction xs with
  | nil => exact ⟨[], rfl, rfl, by simp⟩
  | cons a l ih =>
    have ha := h a (by simp)
    obtain ⟨d, rfl⟩ : ∃ d, a = Value.dict d := by
      cases a <;> simp_all [elemCleanable]
    have hd : d.all (fun kv => cleanReturns kv.2) = true := by
      simpa [elemCleanable] using ha
    have helem : process_prospect_elem pid t mo (Value.dict d)
        = .ok [("prospect_id", Value.str pid), ("titulo", t), ("modalidade", mo),
            ("nome", cleanTotal (dictGet d "nome")),
            ("codigo", cleanTotal (dictGet d "codigo")),
            ("situacao_candidado", cleanTotal (dictGet d "situacao_candidado")),
            ("data_candidatura", cleanTotal (dictGet d "data_candidatura")),
            ("ultima_atualizacao", cleanTotal (dictGet d "ultima_atualizacao")),
            ("comentario", cleanTotal (dictGet d "comentario")),
            ("recrutador", cleanTotal (dictGet d "recrutador"))] := by
      simp only [process_prospect_elem, cleanLeaf_ok d hd, except_bind_ok]
      rfl
    obtain ⟨rs, hrs, hlen, hfields⟩ := ih (fun x hx => h x (by simp [hx]))
    refine ⟨[("prospect_id", Value.str pid), ("titulo", t), ("modalidade", mo),
        ("nome", cleanTotal (dictGet d "nome")),
        ("codigo", cleanTotal (dictGet d "codigo")),
        ("situacao_candidado", cleanTotal (dictGet d "situacao_candidado")),
        ("data_candidatura", cleanTotal (dictGet d "data_candidatura")),
        ("ultima_atualizacao", cleanTotal (dictGet d "ultima_atualizacao")),
        ("comentario", cleanTotal (dictGet d "comentario")),
        ("recrutador", cleanTotal (dictGet d "recrutador"))] :: rs,
      ?_, by simp [hlen], ?_⟩
    · rw [List.mapM_cons, helem, hrs]
      rfl
    · intro r hr
      rcases List.mem_cons.mp hr with h1 | h1
      · subst h1
        exact ⟨rfl, rfl, rfl⟩
      · exact hfields r h1

theorem process_prospect_record_ok (pid : String) (pdata : Value)
    (hwf : wellFormedGroup pdata = true) (hcl : cleanableGroup pdata = true) :
    ∃ recs, process_prospect_record pid pdata = .ok recs
      ∧ recs.length = embeddedLen pdata
      ∧ ∀ r ∈ recs,
          r.lookup "prospect_id" = some (Value.str pid)
          ∧ r.lookup "titulo" =
              some (cleanTotal (dictGet (asDictEntries pdata) "titulo"))
          ∧ r.lookup "modalidade" =
              some (cleanTotal (dictGet (asDictEntries pdata) "modalidade")) := by
  obtain ⟨kvs, rfl⟩ : ∃ kvs, pdata = Value.dict kvs := by
    cases pdata <;> simp_all [wellFormedGroup]
  rw [show cleanableGroup (Value.dict kvs)
      = (cleanReturns (dictGet kvs "titulo")
        && (cleanReturns (dictGet kvs "modalidade")
        && (match kvs.lookup "prospects" with
            | some (.list xs) => xs.all elemCleanable
            | _ => true))) from rfl] at hcl
  rw [Bool.and_eq_true, Bool.and_eq_true] at hcl
  obtain ⟨ht, hm, hel⟩ := hcl
  cases hlk : kvs.lookup "prospects" with
  | none =>
    refine ⟨[], ?_, ?_, by simp⟩
    · simp only [process_prospect_record, clean_eq_ok_cleanTotal _ ht,
        clean_eq_ok_cleanTotal _ hm, except_bind_ok, getProspects, hlk]
      rfl
    · simp [embeddedLen, hlk]
  | some v =>
    obtain ⟨xs, rfl⟩ : ∃ xs, v = Value.list xs := by
      cases v <;> simp_all [wellFormedGroup]
    have hall : ∀ x ∈ xs, elemCleanable x = true := by
      rw [hlk] at hel
      rw [List.all_eq_true] at hel
      exact hel
    obtain ⟨rs, hrs, hlen, hfields⟩ :=
      prospect_elems_ok pid (cleanTotal (dictGet kvs "titulo"))
        (cleanTotal (dictGet kvs "modalidade")) xs hall
    refine ⟨rs, ?_, ?_, ?_⟩
    · simp only [process_prospect_record, clean_eq_ok_cleanTotal _ ht,
        clean_eq_ok_cleanTotal _ hm, except_bind_ok, getProspects, hlk]
      exact hrs
    · simp [embeddedLen, hlk, hlen]
    · intro r hr
      simpa [asDictEntries] using hfields r hr

theorem prospects_batch_aux (raw : List (String × Value))
    (h : ∀ p ∈ raw, wellFormedGroup p.2 = true ∧ cleanableGroup p.2 = true) :
    ∀ acc : List (List (String × Value)) × List String,
      (raw.foldl (fun acc p =>
          match process_prospect_record p.1 p.2 with
          | .ok rs => (acc.1 ++ rs, acc.2)
          | .error _ => (acc.1, acc.2 ++ [p.1])) acc).1.length
        = acc.1.length + (raw.map (fun p => embeddedLen p.2)).sum := by
  induction raw with
  | nil =>
    intro acc
    simp
  | cons p l ih =>
    intro acc
    obtain ⟨rs, hok, hlen, _⟩ :=
      process_prospect_record_ok p.1 p.2 (h p (by simp)).1 (h p (by simp)).2
    rw [List.foldl_cons]
    have hstep : (match process_prospect_record p.1 p.2 with
        | .ok rs => (acc.1 ++ rs, acc.2)
        | .error _ => (acc.1, acc.2 ++ [p.1])) = (acc.1 ++ rs, acc.2) := by
      rw [hok]
    rw [hstep, ih (fun q hq => h q (by simp [hq]))]
    simp [hlen]
    omega

/-- C5 counterexample: a group whose `prospects` entry is a list of
mappings — the original claim's notion of a prospect group — but whose
shared `titulo` is a two-element list.  Its embedded list has length 1,
yet flattening raises `ValueError` (the `pd.isna` array truth-test in
`clean_empty_values`) instead of returning one record. -/
theorem C5_counterexample_list_titulo :
    wellFormedGroup (Value.dict [("titulo", Value.list [Value.str "a", Value.str "b"]),
        ("prospects", Value.list [Value.dict []])]) = true
    ∧ embeddedLen (Value.dict [("titulo", Value.list [Value.str "a", Value.str "b"]),
        ("prospects", Value.list [Value.dict []])]) = 1
    ∧ process_prospect_record "p1"
        (Value.dict [("titulo", Value.list [Value.str "a", Value.str "b"]),
          ("prospects", Value.list [Value.dict []])])
      = .error .valueError :=
  ⟨rfl, rfl, rfl⟩

/-- C5 (amended): flattening a well-formed prospect group whose shared
`titulo`/`modalidade` values and embedded events the normalizer accepts
returns exactly `k` records, `k` the length of the embedded `prospects`
list (0 when absent), each record carrying the group id and the group's
shared normalized `titulo` and `modalidade`; consequently, a batch of
such groups yields a prospects table whose row count is the sum of the
groups' embedded-list lengths.  (A group with a leaf the normalizer
rejects raises instead and is skipped by the batch driver.) -/
theorem C5_prospect_flattening (pid : String) (pdata : Value)
    (hwf : wellFormedGroup pdata = true) (hcl : cleanableGroup pdata = true)
    (raw : List (String × Value))
    (hraw : ∀ p ∈ raw, wellFormedGroup p.2 = true ∧ cleanableGroup p.2 = true) :
    (∃ recs, process_prospect_record pid pdata = .ok recs
      ∧ recs.length = embeddedLen pdata
      ∧ ∀ r ∈ recs,
          r.lookup "prospect_id" = some (Value.str pid)
          ∧ r.lookup "titulo" =
              some (cleanTotal (dictGet (asDictEntries pdata) "titulo"))
          ∧ r.lookup "modalidade" =
              some (cleanTotal (dictGet (asDictEntries pdata) "modalidade")))
    ∧ (process_prospects_batch raw).1.length
        = (raw.map (fun p => embeddedLen p.2)).sum := by
  refine ⟨process_prospect_record_ok pid pdata hwf hcl, ?_⟩
  have := prospects_batch_aux raw hraw ([], [])
  simpa [process_prospects_batch] using this

/-- A two-event prospect group used to witness C5. -/
def demoGroup : Value :=
  Value.dict [("titulo", Value.str "T"), ("modalidade", Value.str " "),
    ("prospects", Value.list [Value.dict [("nome", Value.str "Ana")],
                              Value.dict []])]

/-- Witness for C5 at a concrete two-event group: the flattener emits two
records and the batch of that single group has two rows. -/
theorem C5_prospect_flattening_witness :
    (∃ recs, process_prospect_record "p1" demoGroup = .ok recs
      ∧ recs.length = embeddedLen demoGroup
      ∧ ∀ r ∈ recs,
          r.lookup "prospect_id" = some (Value.str "p1")
          ∧ r.lookup "titulo" =
              some (cleanTotal (dictGet (asDictEntries demoGroup) "titulo"))
          ∧ r.lookup "modalidade" =
              some (cleanTotal (dictGet (asDictEntries demoGroup) "modalidade")))
    ∧ (process_prospects_batch [("p1", demoGroup)]).1.length
        = ([("p1", demoGroup)].map (fun p => embeddedLen p.2)).sum :=
  C5_prospect_flattening "p1" demoGroup (by rfl) (by rfl) [("p1", demoGroup)]
    (fun p hp => by
      rw [List.mem_singleton] at hp
      subst hp
      exact ⟨rfl, rfl⟩)

/-- Whether an embedded call raised. -/
def exceptFailed {ε α : Type} : Except ε α → Bool
  | .error _ => true
  | .ok _ => false

theorem vagas_batch_aux (raw : List (String × Value)) :
    ∀ acc : List (List (String × Value)) × List String,
      raw.foldl (fun acc p =>
          match process_vaga_record p.1 p.2 with
          | .ok r => (acc.1 ++ [r], acc.2)
          | .error _ => (acc.1, acc.2 ++ [p.1])) acc
      = (acc.1 ++ raw.filterMap (fun p => (process_vaga_record p.1 p.2).toOption),
         acc.2 ++ (raw.filter
             (fun p => exceptFailed (process_vaga_record p.1 p.2))).map Prod.fst) := by
  induction raw with
  | nil =>
    intro acc
    simp
  | cons p l ih =>
    intro acc
    rw [List.foldl_cons]
    cases hpv : process_vaga_record p.1 p.2 with
    | ok r =>
      rw [ih]
      simp [List.filterMap_cons, List.filter_cons, hpv, exceptFailed, Except.toOption]
    | error e =>
      rw [ih]
      simp [List.filterMap_cons, List.filter_cons, hpv, exceptFailed, Except.toOption]

theorem vagas_count_aux (l : List (String × Value)) :
    (l.filterMap (fun p => (process_vaga_record p.1 p.2).toOption)).length
      + (l.filter (fun p => exceptFailed (process_vaga_record p.1 p.2))).length
      = l.length := by
  induction l with
  | nil => rfl
  | cons p t ih =>
    rw [List.filterMap_cons, List.filter_cons]
    cases hpv : process_vaga_record p.1 p.2 with
    | ok r =>
      simp [exceptFailed, Except.toOption] at ih ⊢
      omega
    | error e =>
      simp [exceptFailed, Except.toOption] at ih ⊢
      omega

/-- C6: over any batch of raw job entries, the driver loop catches every
per-record failure — the jobs table gets exactly `n - m` rows where `n`
is the batch size and `m` the number of entries whose flattening raised,
the log gets exactly the ids of the `m` failing entries, and (ids being
the keys of a Python dict, hence distinct) the `m` logged failures are
distinct; the loop itself is total, never propagating a per-record
exception. -/
theorem C6_process_vagas_batch (raw : List (String × Value)) :
    (process_vagas_batch raw).1.length
      = raw.length
        - (raw.filter (fun p => exceptFailed (process_vaga_record p.1 p.2))).length
    ∧ (process_vagas_batch raw).2
        = (raw.filter (fun p => exceptFailed (process_vaga_record p.1 p.2))).map
            Prod.fst
    ∧ ((raw.map Prod.fst).Nodup → (process_vagas_batch raw).2.Nodup) := by
  have hb := vagas_batch_aux raw ([], [])
  have h1 : (process_vagas_batch raw).1
      = raw.filterMap (fun p => (process_vaga_record p.1 p.2).toOption) := by
    rw [process_vagas_batch, hb]
    simp
  have h2 : (process_vagas_batch raw).2
      = (raw.filter (fun p => exceptFailed (process_vaga_record p.1 p.2))).map
          Prod.fst := by
    rw [process_vagas_batch, hb]
    simp
  refine ⟨?_, h2, ?_⟩
  · rw [h1]
    have hsum := vagas_count_aux raw
    omega
  · intro hnd
    rw [h2]
    exact hnd.sublist (List.Sublist.map Prod.fst (List.filter_sublist raw))

/-- A three-entry job batch with one malformed entry, used to witness
C6. -/
def demoVagas : List (String × Value) :=
  [("v1", Value.dict []), ("v2", Value.str "oops"), ("v3", Value.dict [])]

/-- Witness for C6 at a concrete batch of three jobs, one malformed: the
row count is the batch size minus the failure count, and the logged ids
are distinct. -/
theorem C6_process_vagas_batch_witness :
    (process_vagas_batch demoVagas).1.length
      = demoVagas.length
        - (demoVagas.filter
            (fun p => exceptFailed (process_vaga_record p.1 p.2))).length
    ∧ (process_vagas_batch demoVagas).2.Nodup :=
  ⟨(C6_process_vagas_batch demoVagas).1,
   (C6_process_vagas_batch demoVagas).2.2 (by decide)⟩

theorem process_applicant_record_ok (app_id : String)
    (app_data basic personal professional education : List (String × Value))
    (hb : getSubDict app_data "infos_basicas" = .ok basic)
    (hp : getSubDict app_data "informacoes_pessoais" = .ok personal)
    (hq : getSubDict app_data "informacoes_profissionais" = .ok professional)
    (he : getSubDict app_data "formacao_e_idiomas" = .ok education)
    (hvb : basic.all (fun kv => cleanReturns kv.2) = true)
    (hvp : personal.all (fun kv => cleanReturns kv.2) = true)
    (hvq : professional.all (fun kv => cleanReturns kv.2) = true)
    (hve : education.all (fun kv => cleanReturns kv.2) = true)
    (hcv1 : cleanReturns (dictGet app_data "cv_pt") = true)
    (hcv2 : cleanReturns (dictGet app_data "cv_en") = true) :
    process_applicant_record app_id app_data
      = .ok (applicantRecordOf app_id basic personal professional education
          app_data) := by
  simp only [process_applicant_record, hb, hp, hq, he,
    cleanLeaf_ok basic hvb, cleanLeaf_ok personal hvp,
    cleanLeaf_ok professional hvq, cleanLeaf_ok education hve,
    clean_eq_ok_cleanTotal _ hcv1, clean_eq_ok_cleanTotal _ hcv2,
    except_bind_ok]
  rfl

/-- C10 counterexample: with `infos_basicas` a mapping — the original
claim's only hypothesis — whose `nome` holds a two-element list, the
program raises `ValueError` inside `clean_empty_values` instead of
returning a record. -/
theorem C10_counterexample_list_leaf :
    getSubDict [("infos_basicas",
        Value.dict [("nome", Value.list [Value.str "a", Value.str "b"])])]
      "infos_basicas"
      = .ok [("nome", Value.list [Value.str "a", Value.str "b"])]
    ∧ process_applicant_record "a1"
        [("infos_basicas",
          Value.dict [("nome", Value.list [Value.str "a", Value.str "b"])])]
      = .error .valueError :=
  ⟨rfl, rfl⟩

/-- C10 (amended): for every applicant id and nested mapping whose four
sub-object entries, when present, are mappings, whose sub-objects'
stored values the normalizer accepts, and whose top-level `cv_pt`/`cv_en`
values the normalizer accepts, `process_applicant_record` returns
without raising a record whose key list is exactly the fixed 31 names,
whose `id` field is the given id, and in which every leaf whose source
key is absent from its sub-object (resp. the top level, for the two CV
fields) is the null marker.  (A leaf the normalizer rejects — e.g. a
two-element list — makes the call raise `ValueError` instead.) -/
theorem C10_process_applicant_record_total (app_id : String)
    (app_data basic personal professional education : List (String × Value))
    (hb : getSubDict app_data "infos_basicas" = .ok basic)
    (hp : getSubDict app_data "informacoes_pessoais" = .ok personal)
    (hq : getSubDict app_data "informacoes_profissionais" = .ok professional)
    (he : getSubDict app_data "formacao_e_idiomas" = .ok education)
    (hvb : basic.all (fun kv => cleanReturns kv.2) = true)
    (hvp : personal.all (fun kv => cleanReturns kv.2) = true)
    (hvq : professional.all (fun kv => cleanReturns kv.2) = true)
    (hve : education.all (fun kv => cleanReturns kv.2) = true)
    (hcv1 : cleanReturns (dictGet app_data "cv_pt") = true)
    (hcv2 : cleanReturns (dictGet app_data "cv_en") = true) :
    process_applicant_record app_id app_data
      = .ok (applicantRecordOf app_id basic personal professional education
          app_data)
    ∧ (applicantRecordOf app_id basic personal professional education
        app_data).map Prod.fst = applicantFields
    ∧ (applicantRecordOf app_id basic personal professional education
        app_data).lookup "id" = some (Value.str app_id)
    ∧ (∀ f sk lk, (f, sk, lk) ∈ applicantLeafPaths →
        (applicantSubFor basic personal professional education sk).lookup lk
          = none →
        (applicantRecordOf app_id basic personal professional education
          app_data).lookup f = some Value.null)
    ∧ (app_data.lookup "cv_pt" = none →
        (applicantRecordOf app_id basic personal professional education
          app_data).lookup "cv_pt" = some Value.null)
    ∧ (app_data.lookup "cv_en" = none →
        (applicantRecordOf app_id basic personal professional education
          app_data).lookup "cv_en" = some Value.null) := by
  refine ⟨process_applicant_record_ok app_id app_data basic personal
      professional education hb hp hq he hvb hvp hvq hve hcv1 hcv2,
    rfl, rfl, ?_, ?_, ?_⟩
  · intro f sk lk hmem habs
    fin_cases hmem <;>
      exact congrArg some (cleanTotal_dictGet_none _ _ habs)
  · intro habs
    exact congrArg some (cleanTotal_dictGet_none _ _ habs)
  · intro habs
    exact congrArg some (cleanTotal_dictGet_none _ _ habs)

/-- Witness for C10 at the empty applicant mapping: all hypotheses hold
with empty sub-objects, the call succeeds, the key list is the fixed 31
names, and the absent leaves are null. -/
theorem C10_process_applicant_record_total_witness :
    process_applicant_record "a1" [] = .ok (applicantRecordOf "a1" [] [] [] [] [])
    ∧ (applicantRecordOf "a1" [] [] [] [] []).map Prod.fst = applicantFields
    ∧ (applicantRecordOf "a1" [] [] [] [] []).lookup "id"
        = some (Value.str "a1")
    ∧ (∀ f sk lk, (f, sk, lk) ∈ applicantLeafPaths →
        (applicantSubFor [] [] [] [] sk).lookup lk = none →
        (applicantRecordOf "a1" [] [] [] [] []).lookup f = some Value.null)
    ∧ (([] : List (String × Value)).lookup "cv_pt" = none →
        (applicantRecordOf "a1" [] [] [] [] []).lookup "cv_pt"
          = some Value.null)
    ∧ (([] : List (String × Value)).lookup "cv_en" = none →
        (applicantRecordOf "a1" [] [] [] [] []).lookup "cv_en"
          = some Value.null) :=
  C10_process_applicant_record_total "a1" [] [] [] [] []
    rfl rfl rfl rfl rfl rfl rfl rfl rfl rfl

/-! ### Layer Materializer (`data_processing/nodes.py`) -/

set_option linter.unusedVariables false

/-- A materialized table: named columns over rows of values. -/
structure DataFrame where
  cols : List String
  rows : List (List Value)

/-- `data_processing/nodes.py` lines 16-41, the body of
`process_sql_to_parquet` as it stands: it never reads `sql_query`.  With
no intermediate table, `SimpleImputer.fit_transform(None)` raises; with a
table, the body runs the sklearn imputation / ordinal-encoding / tf-idf
steps on it and returns the transformed table.  Those steps are external
sklearn collaborators (the spec places them out of scope), abstracted
here as `sklearn_transform`; nothing below depends on what that function
does.  The unused `sql_query` parameter mirrors the source signature.
(The file's displaced docstring at lines 48-57 — "Process SQL
query and return DataFrame … sql_query: SQL query to execute" — and the
dead duckdb connect/register/execute/close block at lines 58-75,
stranded after the `return` of `split_train_test`, document the intended
duckdb-executing body.) -/
def process_sql_to_parquet (sklearn_transform : DataFrame → DataFrame)
    (sql_query : String) (intermediate_data : Option DataFrame) :
    Except PyError DataFrame :=
  match intermediate_data with
  | none => .error .valueError
  | some df => .ok (sklearn_transform df)

/-- C1: the per-entity promotion path does not materialize SQL at all —
`process_sql_to_parquet`'s result is independent of the query string,
and on the claim's concrete test (`"SELECT 1 AS x"` with no named
tables) it raises instead of returning the one-row, one-column table. -/
theorem C1_process_sql_to_parquet_ignores_query :
    (∀ (t : DataFrame → DataFrame) (q q' : String) (d : Option DataFrame),
      process_sql_to_parquet t q d = process_sql_to_parquet t q' d)
    ∧ (∀ t : DataFrame → DataFrame,
      process_sql_to_parquet t "SELECT 1 AS x" none = .error .valueError) := by
  constructor
  · intro t q q' d
    cases d <;> rfl
  · intro t
    rfl

/-- Lifecycle events of the per-call duckdb connection. -/
inductive ConnEvent where
  | opened : ConnEvent
  | registered : String → ConnEvent
  | executed : ConnEvent
  | failed : ConnEvent
  | closed : ConnEvent
deriving DecidableEq, Repr

/-- Outcome of one core-join materialization call: the returned (or
re-raised) result and the trace of connection events in order. -/
structure CoreCallResult where
  result : Except String DataFrame
  trace : List ConnEvent

/-- `data_processing/nodes.py` lines 129-155, `process_core_primary`:
opens an in-memory duckdb connection, registers the three primary tables
under their names, executes the query (the duckdb engine is an external
collaborator, abstracted as `engine`); on failure it logs (`failed`
event) and re-raises; the `finally` block closes the connection last on
both paths. -/
def process_core_primary
    (engine : String → List (String × DataFrame) → Except String DataFrame)
    (sql_query : String)
    (primary_applicants primary_vagas primary_prospects : DataFrame) :
    CoreCallResult :=
  let tables := [("primary_applicants", primary_applicants),
                 ("primary_vagas", primary_vagas),
                 ("primary_prospects", primary_prospects)]
  let pre := ConnEvent.opened :: tables.map (fun p => ConnEvent.registered p.1)
  match engine sql_query tables with
  | .ok df => { result := .ok df, trace := pre ++ [.executed, .closed] }
  | .error e => { result := .error e, trace := pre ++ [.failed, .closed] }

/-- C9: every core-join materialization call releases its connection on
every exit path — the last connection event is always `closed` — while
the engine's outcome is passed through unchanged (the result table on
success, the re-raised error on failure) and a failure is logged exactly
when the call fails. -/
theorem C9_process_core_primary_cleanup
    (engine : String → List (String × DataFrame) → Except String DataFrame)
    (sql_query : String) (a v p : DataFrame) :
    (process_core_primary engine sql_query a v p).trace.getLast? = some .closed
    ∧ (process_core_primary engine sql_query a v p).result
        = engine sql_query [("primary_applicants", a), ("primary_vagas", v),
            ("primary_prospects", p)]
    ∧ ((process_core_primary engine sql_query a v p).trace.contains .failed
        = exceptFailed (process_core_primary engine sql_query a v p).result) := by
  unfold process_core_primary
  cases h : engine sql_query [("primary_applicants", a), ("primary_vagas", v),
      ("primary_prospects", p)] with
  | ok df =>
    refine ⟨?_, by simp [h], by simp [h, exceptFailed]⟩
    simp [h, List.getLast?_append]
  | error e =>
    refine ⟨?_, by simp [h], by simp [h, exceptFailed]⟩
    simp [h, List.getLast?_append]

end Datathon
